import Mathlib

/-!
Shallow embedding of the `youtube_knowledge` processing pipeline and its
persistent state machine (modules `models.py`, `transcript.py`, `state.py`,
`cli.py`), together with theorems settling the specification claims.

Python `dict[str, V]` values are embedded as association lists with unique
keys; mutation becomes functional update.  Python truthiness of
`str | None` (`not x` is true exactly for `None` and `""`) is embedded
explicitly, since several claims turn on the difference between "null" and
"falsy".
-/

namespace YTK

/-- Python `d.get(key)` / `d[key]` on a `dict` embedded as an association
list: the value at the first matching key, if any. -/
def dictLookup {V : Type} : List (String × V) → String → Option V
  | [], _ => none
  | (k, v) :: rest, key => if k = key then some v else dictLookup rest key

/-- Python `d[key] = v`: replace the value at an existing key in place,
else append a new entry (insertion order semantics of `dict`). -/
def dictInsert {V : Type} : List (String × V) → String → V → List (String × V)
  | [], key, v => [(key, v)]
  | (k, w) :: rest, key, v =>
      if k = key then (k, v) :: rest else (k, w) :: dictInsert rest key v

/-- Python `del d[key]`: remove the entry at the given key. -/
def dictErase {V : Type} : List (String × V) → String → List (String × V)
  | [], _ => []
  | (k, w) :: rest, key => if k = key then rest else (k, w) :: dictErase rest key

/-- Python `key in d`. -/
def dictContains {V : Type} (d : List (String × V)) (key : String) : Bool :=
  (dictLookup d key).isSome

/-- Python truthiness of a `str | None` value: `None` and `""` are falsy,
every other string is truthy. -/
def strOptTruthy : Option String → Bool
  | none => false
  | some s => !s.isEmpty

/-- Python truthiness of a `list | None` value: `None` and `[]` are falsy. -/
def listOptTruthy {α : Type} : Option (List α) → Bool
  | none => false
  | some l => !l.isEmpty

/-- Embedding of Python `f"{n:02d}"`: decimal rendering left-padded with
zeros to a minimum width of two characters. -/
def pad2 (n : ℤ) : String :=
  if 0 ≤ n ∧ n < 10 then "0" ++ toString n else toString n

/-- `models.VideoInfo`: identifier, title, canonical URL. -/
structure VideoInfo where
  video_id : String
  title : String
  url : String
deriving DecidableEq, Repr

/-- `models.TranscriptEntry`: one timed caption segment.  The Python
`float` offsets are embedded as rationals. -/
structure TranscriptEntry where
  text : String
  start : ℚ
  duration : ℚ
deriving DecidableEq, Repr

/-- `models.ProcessedVideo`: record of one terminal processing attempt. -/
structure ProcessedVideo where
  video_id : String
  title : String
  processed_at : String
  gemini_file_name : String
  transcript_length : ℕ
  transformed_length : ℕ
  error : Option String
deriving DecidableEq, Repr

/-- `ProcessedVideo.create`: the `datetime.utcnow().isoformat()` timestamp
is passed in explicitly as `now`. -/
def ProcessedVideo.create (now video_id title gemini_file_name : String)
    (transcript_length transformed_length : ℕ) (error : Option String) :
    ProcessedVideo :=
  { video_id := video_id
    title := title
    processed_at := now
    gemini_file_name := gemini_file_name
    transcript_length := transcript_length
    transformed_length := transformed_length
    error := error }

/-- `models.PlaylistState`: per-playlist processing history. -/
structure PlaylistState where
  playlist_id : String
  file_search_store_name : String
  created_at : String
  last_updated : String
  processed_videos : List (String × ProcessedVideo)
  failed_videos : List (String × String)
deriving DecidableEq, Repr

/-- `PlaylistState.create`. -/
def PlaylistState.create (now playlist_id file_search_store_name : String) :
    PlaylistState :=
  { playlist_id := playlist_id
    file_search_store_name := file_search_store_name
    created_at := now
    last_updated := now
    processed_videos := []
    failed_videos := [] }

/-- `PlaylistState.is_processed`: `video_id in self.processed_videos and
not self.processed_videos[video_id].error` — note the Python truthiness
test on the `error` field. -/
def PlaylistState.is_processed (s : PlaylistState) (video_id : String) : Bool :=
  match dictLookup s.processed_videos video_id with
  | none => false
  | some v => !(strOptTruthy v.error)

/-- `PlaylistState.add_processed`: store the record under its video id,
refresh `last_updated`, and delete the failure-ledger entry only when the
record's `error` field is truthy and the entry exists. -/
def PlaylistState.add_processed (s : PlaylistState) (now : String)
    (video : ProcessedVideo) : PlaylistState :=
  let s1 := { s with
    processed_videos := dictInsert s.processed_videos video.video_id video
    last_updated := now }
  if strOptTruthy video.error && dictContains s1.failed_videos video.video_id then
    { s1 with failed_videos := dictErase s1.failed_videos video.video_id }
  else
    s1

/-- `PlaylistState.add_failed`: store the error text under the video id
and refresh `last_updated`. -/
def PlaylistState.add_failed (s : PlaylistState) (now video_id error : String) :
    PlaylistState :=
  { s with
    failed_videos := dictInsert s.failed_videos video_id error
    last_updated := now }

/-- Python's float modulo `a % b` (sign of the divisor): `a - b * ⌊a / b⌋`. -/
def pyMod (a b : ℚ) : ℚ := a - b * ⌊a / b⌋

/-- `TranscriptRetriever._format_timestamp`.  In the Python source
`hours = int(seconds // 3600)`, `minutes = int((seconds % 3600) // 60)`,
`secs = int(seconds % 60)`.  `seconds // 3600` and `(seconds % 3600) // 60`
are floors, and already integral, so the outer `int` is exact; `seconds % 60`
is non-negative for the positive divisor, so `int` truncation coincides with
the floor.  All three therefore embed as rational floors. -/
def format_timestamp (seconds : ℚ) : String :=
  let hours : ℤ := ⌊seconds / 3600⌋
  let minutes : ℤ := ⌊pyMod seconds 3600 / 60⌋
  let secs : ℤ := ⌊pyMod seconds 60⌋
  if 0 < hours then
    pad2 hours ++ ":" ++ pad2 minutes ++ ":" ++ pad2 secs
  else
    pad2 minutes ++ ":" ++ pad2 secs

/-- `TranscriptRetriever.format_transcript`: one `[<timestamp>] <text>`
line per entry, joined with newlines. -/
def format_transcript (transcript : List TranscriptEntry) : String :=
  String.intercalate "\n"
    (transcript.map fun entry =>
      "[" ++ format_timestamp entry.start ++ "] " ++ entry.text)

/-- Modelled from the spec (claim C3's rendering rule, for comparison with
`format_timestamp`): discard the fractional part of the start-offset,
then show `MM:SS` when the start is under 3600 seconds and `HH:MM:SS`
otherwise, every field computed by integer division and zero-padded to
two digits. -/
def timestampSpec (start : ℚ) : String :=
  let n : ℕ := ⌊start⌋₊
  if start < 3600 then
    pad2 ((n / 60 : ℕ) : ℤ) ++ ":" ++ pad2 ((n % 60 : ℕ) : ℤ)
  else
    pad2 ((n / 3600 : ℕ) : ℤ) ++ ":" ++ pad2 ((n % 3600 / 60 : ℕ) : ℤ) ++ ":" ++
      pad2 ((n % 60 : ℕ) : ℤ)

/-- Modelled from the spec (claim C3): the newline-join of one line per
segment rendered as `[<timestamp>] <text>` in input order. -/
def formatTranscriptSpec (transcript : List TranscriptEntry) : String :=
  String.intercalate "\n"
    (transcript.map fun entry =>
      "[" ++ timestampSpec entry.start ++ "] " ++ entry.text)

/-- The results the three per-video collaborators return for one video:
`TranscriptRetriever.get_transcript` (a list of entries or `None`),
`TranscriptTransformer.transform` (text or `None`) and
`GeminiUploader.upload_document` (a file resource name or `None`).
The pipeline is embedded as a function of these oracle values. -/
structure StageResults where
  fetch : Option (List TranscriptEntry)
  transform : Option String
  upload : Option String
deriving DecidableEq, Repr

/-- Observable result of `cli._process_single_video`: the returned
`(success, status)` pair, the mutated `PlaylistState`, the sequence of
states passed to `StateManager.save`, and which later collaborators were
invoked. -/
structure ProcessOutput where
  success : Bool
  status : String
  state : PlaylistState
  saves : List PlaylistState
  transform_called : Bool
  upload_called : Bool
deriving DecidableEq, Repr

/-- `cli._process_single_video`: fetch → format → transform → upload,
stopping at the first falsy collaborator result, with the failure text of
the stage recorded in the ledger and the state saved on every terminal
path.  `if not transcript` / `if not transformed` / `if file_name` are
Python truthiness tests. -/
def process_single_video (video : VideoInfo) (state_obj : PlaylistState)
    (col : StageResults) (now : String) : ProcessOutput :=
  if !(listOptTruthy col.fetch) then
    let s := state_obj.add_failed now video.video_id "Failed to retrieve transcript"
    ⟨false, "failed", s, [s], false, false⟩
  else
    let transcript := col.fetch.getD []
    let formatted_transcript := format_transcript transcript
    if !(strOptTruthy col.transform) then
      let s := state_obj.add_failed now video.video_id "Failed to transform transcript"
      ⟨false, "failed", s, [s], true, false⟩
    else
      let transformed := col.transform.getD ""
      let display_name := "youtube-" ++ video.video_id
      if strOptTruthy col.upload then
        let record := ProcessedVideo.create now video.video_id video.title
          display_name formatted_transcript.length transformed.length none
        let s := state_obj.add_processed now record
        ⟨true, "processed", s, [s], true, true⟩
      else
        let s := state_obj.add_failed now video.video_id "Failed to upload to Gemini"
        ⟨false, "failed", s, [s], true, true⟩

/-- The orchestrator's per-run accumulator: the three counters and the
in-memory `PlaylistState`. -/
structure RunState where
  processed_count : ℕ
  skipped_count : ℕ
  failed_count : ℕ
  state : PlaylistState
deriving DecidableEq, Repr

/-- Whether the loop body of `cli.process` reaches the call to
`_process_single_video` for this video (the negation of the
`skip_existing and state.is_processed(...)` guard). -/
def stepInvokesProcessor (skip_existing : Bool) (rs : RunState)
    (video : VideoInfo) : Bool :=
  !(skip_existing && rs.state.is_processed video.video_id)

/-- One iteration of the per-video loop of `cli.process` (lines 189–220):
skip, or delegate to `_process_single_video` and bump exactly one
counter. -/
def processStep (skip_existing : Bool) (now : String) (rs : RunState)
    (video : VideoInfo) (col : StageResults) : RunState :=
  if skip_existing && rs.state.is_processed video.video_id then
    { rs with skipped_count := rs.skipped_count + 1 }
  else
    let out := process_single_video video rs.state col now
    if out.success then
      { rs with processed_count := rs.processed_count + 1, state := out.state }
    else
      { rs with failed_count := rs.failed_count + 1, state := out.state }

/-- Behavior of one loop iteration seen from the orchestrator: either the
collaborators return their results, or some statement in the iteration
raises an unhandled exception. -/
inductive StepBehavior where
  | returns (col : StageResults)
  | raises
deriving DecidableEq, Repr

/-- The per-video loop of `cli.process`.  The whole loop sits inside a
single `try`/`except` whose handler prints the error and calls
`sys.exit(1)`, so an unhandled exception in any iteration propagates out
of the loop: the remaining videos are not attempted and the accumulated
counters are discarded (`Except.error`). -/
def runLoop (skip_existing : Bool) (now : String) :
    List (VideoInfo × StepBehavior) → RunState → Except Unit RunState
  | [], rs => Except.ok rs
  | (_, StepBehavior.raises) :: _, _ => Except.error ()
  | (video, StepBehavior.returns col) :: rest, rs =>
      runLoop skip_existing now rest (processStep skip_existing now rs video col)

/-- The fields actually present in one serialized `processed_videos`
entry, as `StateManager.load` sees them before `ProcessedVideo(**video_data)`
is called (`none` = the key is absent from the JSON object). -/
structure RawVideoData where
  video_id : Option String
  title : Option String
  processed_at : Option String
  gemini_file_name : Option String
  transcript_length : Option ℕ
  transformed_length : Option ℕ
  error : Option (Option String)
deriving DecidableEq, Repr

/-- The top-level fields present in a parsed playlist-state JSON document
(`none` = the key is absent). -/
structure RawState where
  playlist_id : Option String
  file_search_store_name : Option String
  created_at : Option String
  last_updated : Option String
  processed_videos : Option (List (String × RawVideoData))
  failed_videos : Option (List (String × String))
deriving DecidableEq, Repr

/-- What `StateManager.load` finds for a playlist id: no state file, a
file `json.load` cannot parse, or a parsed JSON document. -/
inductive LoadInput where
  | missing
  | invalidJson
  | parsed (data : RawState)
deriving DecidableEq, Repr

/-- `ProcessedVideo(**video_data)`: succeeds only when every field without
a dataclass default is present (`error` defaults to `None`); a missing
required field raises `TypeError`. -/
def buildProcessedVideo (raw : RawVideoData) : Except String ProcessedVideo :=
  match raw.video_id, raw.title, raw.processed_at, raw.gemini_file_name,
      raw.transcript_length, raw.transformed_length with
  | some vid, some t, some p, some g, some tl, some fl =>
      Except.ok ⟨vid, t, p, g, tl, fl, raw.error.getD none⟩
  | _, _, _, _, _, _ => Except.error "TypeError"

/-- The dict comprehension over `data.get("processed_videos", {})` in
`StateManager.load`: builds every entry, propagating a `TypeError`. -/
def buildProcessedVideos :
    List (String × RawVideoData) → Except String (List (String × ProcessedVideo))
  | [] => Except.ok []
  | (k, raw) :: rest =>
      match buildProcessedVideo raw with
      | Except.error e => Except.error e
      | Except.ok v =>
          match buildProcessedVideos rest with
          | Except.error e => Except.error e
          | Except.ok vs => Except.ok ((k, v) :: vs)

/-- `StateManager.load`: `Except.ok (result, warned)` when the call
returns (`result` the optional state, `warned` whether the
`except (json.JSONDecodeError, KeyError)` handler printed its warning);
`Except.error` when an exception escapes.  A missing file returns `None`
without a warning; a JSON parse failure and a missing required top-level
key are caught by the handler; a `TypeError` raised by
`ProcessedVideo(**video_data)` inside the comprehension is not caught. -/
def loadState (input : LoadInput) : Except String (Option PlaylistState × Bool) :=
  match input with
  | LoadInput.missing => Except.ok (none, false)
  | LoadInput.invalidJson => Except.ok (none, true)
  | LoadInput.parsed data =>
      match buildProcessedVideos (data.processed_videos.getD []) with
      | Except.error e => Except.error e
      | Except.ok pv =>
          match data.playlist_id, data.file_search_store_name,
              data.created_at, data.last_updated with
          | some pid, some store, some created, some updated =>
              Except.ok (some ⟨pid, store, created, updated, pv,
                data.failed_videos.getD []⟩, false)
          | _, _, _, _ => Except.ok (none, true)

/-! Concrete fixtures used by witnesses and counterexamples. -/

/-- A playlist state holding one failure-ledger entry for `"v1"`. -/
def stateWithLedger : PlaylistState :=
  { playlist_id := "p1", file_search_store_name := "store"
    created_at := "t0", last_updated := "t0"
    processed_videos := [], failed_videos := [("v1", "e1")] }

/-- A record for `"v1"` whose error is the non-null empty string. -/
def recordEmptyError : ProcessedVideo :=
  { video_id := "v1", title := "Video One", processed_at := "t1"
    gemini_file_name := "youtube-v1", transcript_length := 10
    transformed_length := 20, error := some "" }

/-- A record for `"v1"` with a truthy error message. -/
def recordRealError : ProcessedVideo :=
  { recordEmptyError with error := some "boom" }

/-- A record for `"v1"` with a null error (a success record). -/
def recordNoError : ProcessedVideo :=
  { recordEmptyError with error := none }

/-- A playlist state whose record for `"v1"` carries the error `""`. -/
def stateEmptyErrRecord : PlaylistState :=
  { stateWithLedger with
    processed_videos := [("v1", recordEmptyError)]
    failed_videos := [] }

/-- A playlist state holding a success record for `"v1"`. -/
def stateProcessedOk : PlaylistState :=
  { stateWithLedger with
    processed_videos := [("v1", recordNoError)]
    failed_videos := [] }

def videoV1 : VideoInfo :=
  { video_id := "v1", title := "Video One", url := "https://www.youtube.com/watch?v=v1" }

def videoV2 : VideoInfo :=
  { video_id := "v2", title := "Video Two", url := "https://www.youtube.com/watch?v=v2" }

def videoV3 : VideoInfo :=
  { video_id := "v3", title := "Video Three", url := "https://www.youtube.com/watch?v=v3" }

/-- Collaborator results for a fully successful attempt. -/
def happyCol : StageResults :=
  { fetch := some [{ text := "Hello world", start := 0, duration := 2 }]
    transform := some "# Doc", upload := some "files/doc1" }

/-- Collaborator results when the transcript fetch returns `None`. -/
def fetchNoneCol : StageResults :=
  { fetch := none, transform := some "# Doc", upload := some "files/doc1" }

/-- Collaborator results when the transcript fetch returns an empty list. -/
def fetchEmptyCol : StageResults :=
  { fetch := some [], transform := some "# Doc", upload := some "files/doc1" }

/-- A fresh state, as `StateManager.get_or_create` builds on first contact. -/
def freshState : PlaylistState := PlaylistState.create "t0" "p1" "store"

/-- A serialized video entry with every required field present. -/
def goodRawVideo : RawVideoData :=
  { video_id := some "v1", title := some "Video One", processed_at := some "t1"
    gemini_file_name := some "youtube-v1", transcript_length := some 10
    transformed_length := some 20, error := some none }

/-- A serialized video entry missing the required `title` field. -/
def badRawVideo : RawVideoData :=
  { goodRawVideo with title := none }

/-- A parsed state document whose video entry is missing a field. -/
def rawStateBadVideo : RawState :=
  { playlist_id := some "p1", file_search_store_name := some "store"
    created_at := some "t0", last_updated := some "t0"
    processed_videos := some [("v1", badRawVideo)], failed_videos := some [] }

/-- A parsed state document missing the top-level `playlist_id` field. -/
def rawStateMissingTop : RawState :=
  { rawStateBadVideo with
    playlist_id := none
    processed_videos := some [("v1", goodRawVideo)] }

/-- The record `_process_single_video` constructs on its success path
(cli lines 80–86: `ProcessedVideo.create` with the display name, the two
lengths and no error). -/
def successRecord (video : VideoInfo) (col : StageResults) (now : String) :
    ProcessedVideo :=
  ProcessedVideo.create now video.video_id video.title
    ("youtube-" ++ video.video_id)
    (format_transcript (col.fetch.getD [])).length
    (col.transform.getD "").length none

/-- A transcript sample with whole-second start offsets. -/
def transcriptSample : List TranscriptEntry :=
  [{ text := "Hello world", start := 0, duration := 2 },
   { text := "This is a test", start := 61, duration := 3 }]

/-! Helper lemmas about the dictionary embedding. -/

theorem dictLookup_insert_self {V : Type} (d : List (String × V)) (k : String) (v : V) :
    dictLookup (dictInsert d k v) k = some v := by
  induction d with
  | nil => simp [dictInsert, dictLookup]
  | cons hd tl ih =>
      obtain ⟨a, w⟩ := hd
      by_cases h : a = k
      · subst h; simp [dictInsert, dictLookup]
      · simp [dictInsert, dictLookup, h, ih]

theorem dictLookup_insert_ne {V : Type} (d : List (String × V)) (k k' : String) (v : V)
    (h : k' ≠ k) : dictLookup (dictInsert d k v) k' = dictLookup d k' := by
  have hkk : ¬(k = k') := fun hh => h hh.symm
  induction d with
  | nil => simp [dictInsert, dictLookup, hkk]
  | cons hd tl ih =>
      obtain ⟨a, w⟩ := hd
      by_cases ha : a = k
      · subst ha; simp [dictInsert, dictLookup, hkk]
      · by_cases ha' : a = k'
        · subst ha'; simp [dictInsert, dictLookup, ha]
        · simp [dictInsert, dictLookup, ha, ha', ih]

theorem dictLookup_eq_none_of_not_mem {V : Type} (d : List (String × V)) (k : String)
    (h : k ∉ d.map Prod.fst) : dictLookup d k = none := by
  induction d with
  | nil => rfl
  | cons hd tl ih =>
      obtain ⟨a, w⟩ := hd
      simp only [List.map_cons, List.mem_cons] at h
      push_neg at h
      have hak : ¬(a = k) := fun hh => h.1 hh.symm
      simp [dictLookup, hak, ih h.2]

theorem dictLookup_erase_self {V : Type} (d : List (String × V)) (k : String)
    (h : (d.map Prod.fst).Nodup) : dictLookup (dictErase d k) k = none := by
  induction d with
  | nil => rfl
  | cons hd tl ih =>
      obtain ⟨a, w⟩ := hd
      simp only [List.map_cons, List.nodup_cons] at h
      by_cases ha : a = k
      · subst ha
        simp only [dictErase, if_pos rfl]
        exact dictLookup_eq_none_of_not_mem tl a h.1
      · simp [dictErase, ha, dictLookup, ih h.2]

theorem dictInsert_of_lookup_none {V : Type} (d : List (String × V)) (k : String) (v : V)
    (h : dictLookup d k = none) : dictInsert d k v = d ++ [(k, v)] := by
  induction d with
  | nil => rfl
  | cons hd tl ih =>
      obtain ⟨a, w⟩ := hd
      by_cases ha : a = k
      · simp [dictLookup, ha] at h
      · simp only [dictLookup, if_neg ha] at h
        simp [dictInsert, ha, ih h]

theorem dictLookup_append_left {V : Type} (d1 d2 : List (String × V)) (k : String) (v : V)
    (h : dictLookup d1 k = some v) : dictLookup (d1 ++ d2) k = some v := by
  induction d1 with
  | nil => simp [dictLookup] at h
  | cons hd tl ih =>
      obtain ⟨a, w⟩ := hd
      by_cases ha : a = k
      · simp only [dictLookup, if_pos ha] at h
        simp [dictLookup, ha, h]
      · simp only [dictLookup, if_neg ha] at h
        simp [dictLookup, ha, ih h]

theorem dictLookup_append_right {V : Type} (d1 d2 : List (String × V)) (k : String)
    (h : dictLookup d1 k = none) : dictLookup (d1 ++ d2) k = dictLookup d2 k := by
  induction d1 with
  | nil => rfl
  | cons hd tl ih =>
      obtain ⟨a, w⟩ := hd
      by_cases ha : a = k
      · simp [dictLookup, ha] at h
      · simp only [dictLookup, if_neg ha] at h
        simp [dictLookup, ha, ih h]

theorem dictInsert_mem_keys {V : Type} (d : List (String × V)) (k x : String) (v : V)
    (h : x ∈ (dictInsert d k v).map Prod.fst) : x = k ∨ x ∈ d.map Prod.fst := by
  induction d with
  | nil => simpa [dictInsert] using h
  | cons hd tl ih =>
      obtain ⟨a, w⟩ := hd
      by_cases ha : a = k
      · subst ha
        simpa [dictInsert] using h
      · simp only [dictInsert, if_neg ha, List.map_cons, List.mem_cons] at h
        rcases h with h | h
        · exact Or.inr (by simp [h])
        · rcases ih h with h' | h'
          · exact Or.inl h'
          · exact Or.inr (by simp [h'])

theorem dictInsert_keys_nodup {V : Type} (d : List (String × V)) (k : String) (v : V)
    (h : (d.map Prod.fst).Nodup) : ((dictInsert d k v).map Prod.fst).Nodup := by
  induction d with
  | nil => simp [dictInsert]
  | cons hd tl ih =>
      obtain ⟨a, w⟩ := hd
      simp only [List.map_cons, List.nodup_cons] at h
      by_cases ha : a = k
      · subst ha
        show ((if a = a then (a, v) :: tl else (a, w) :: dictInsert tl a v).map
          Prod.fst).Nodup
        rw [if_pos rfl]
        simpa using h
      · show ((if a = k then (a, v) :: tl else (a, w) :: dictInsert tl k v).map
          Prod.fst).Nodup
        rw [if_neg ha]
        simp only [List.map_cons, List.nodup_cons]
        refine ⟨fun hmem => ?_, ih h.2⟩
        rcases dictInsert_mem_keys tl k a v hmem with h' | h'
        · exact ha h'
        · exact h.1 h'

/-! Helper lemmas about rational floor arithmetic, used to relate the
float computation in `_format_timestamp` to integer division on the
truncated start-offset. -/

theorem floor_div_natCast (q : ℚ) (hq : 0 ≤ q) (m : ℕ) :
    ⌊q / (m : ℚ)⌋ = ((⌊q⌋₊ / m : ℕ) : ℤ) := by
  rw [← Nat.floor_div_nat q m]
  exact (Int.natCast_floor_eq_floor (div_nonneg hq (Nat.cast_nonneg m))).symm

theorem pyMod_natCast (q : ℚ) (hq : 0 ≤ q) (m : ℕ) :
    pyMod q (m : ℚ) = ((⌊q⌋₊ % m : ℕ) : ℚ) + (q - (⌊q⌋₊ : ℚ)) := by
  unfold pyMod
  rw [floor_div_natCast q hq m]
  have h := Nat.div_add_mod ⌊q⌋₊ m
  have h2 : ((m : ℚ) * ((⌊q⌋₊ / m : ℕ) : ℚ) + ((⌊q⌋₊ % m : ℕ) : ℚ)) = ((⌊q⌋₊ : ℕ) : ℚ) := by
    exact_mod_cast congrArg (fun x : ℕ => (x : ℚ)) h
  rw [Int.cast_natCast]
  linarith [h2]

theorem natCast_add_fract_intFloor (a : ℕ) (f : ℚ) (h0 : 0 ≤ f) (h1 : f < 1) :
    ⌊(a : ℚ) + f⌋ = (a : ℤ) := by
  rw [Int.floor_eq_iff]
  refine ⟨by push_cast; linarith, by push_cast; linarith⟩

theorem natCast_add_fract_natFloor (a : ℕ) (f : ℚ) (h0 : 0 ≤ f) (h1 : f < 1) :
    ⌊(a : ℚ) + f⌋₊ = a := by
  rw [Nat.floor_eq_iff (by positivity)]
  exact ⟨by linarith, by linarith⟩

/-- The Python float computation of `_format_timestamp` agrees, for
non-negative start-offsets, with the integer-division rendering of the
truncated offset described by the specification. -/
theorem format_timestamp_eq_spec (q : ℚ) (hq : 0 ≤ q) :
    format_timestamp q = timestampSpec q := by
  have hfl : ((⌊q⌋₊ : ℕ) : ℚ) ≤ q := Nat.floor_le hq
  have hfu : q < (⌊q⌋₊ : ℚ) + 1 := Nat.lt_floor_add_one q
  have hf0 : 0 ≤ q - (⌊q⌋₊ : ℚ) := by linarith
  have hf1 : q - (⌊q⌋₊ : ℚ) < 1 := by linarith
  have hours_eq : ⌊q / (3600 : ℚ)⌋ = ((⌊q⌋₊ / 3600 : ℕ) : ℤ) := by
    have h := floor_div_natCast q hq 3600
    rwa [Nat.cast_ofNat] at h
  have hmod3600 : pyMod q (3600 : ℚ) = ((⌊q⌋₊ % 3600 : ℕ) : ℚ) + (q - (⌊q⌋₊ : ℚ)) := by
    have h := pyMod_natCast q hq 3600
    rwa [Nat.cast_ofNat] at h
  have hmod60 : pyMod q (60 : ℚ) = ((⌊q⌋₊ % 60 : ℕ) : ℚ) + (q - (⌊q⌋₊ : ℚ)) := by
    have h := pyMod_natCast q hq 60
    rwa [Nat.cast_ofNat] at h
  have hmins : ⌊pyMod q (3600 : ℚ) / (60 : ℚ)⌋ = ((⌊q⌋₊ % 3600 / 60 : ℕ) : ℤ) := by
    have hnn : 0 ≤ pyMod q (3600 : ℚ) := by
      rw [hmod3600]; exact add_nonneg (Nat.cast_nonneg _) hf0
    have h := floor_div_natCast (pyMod q (3600 : ℚ)) hnn 60
    rw [Nat.cast_ofNat] at h
    rw [h]
    congr 1
    rw [hmod3600, natCast_add_fract_natFloor _ _ hf0 hf1]
  have hsecs : ⌊pyMod q (60 : ℚ)⌋ = ((⌊q⌋₊ % 60 : ℕ) : ℤ) := by
    rw [hmod60, natCast_add_fract_intFloor _ _ hf0 hf1]
  have hbranch : 0 < ⌊q / (3600 : ℚ)⌋ ↔ ¬(q < 3600) := by
    rw [hours_eq]
    constructor
    · intro h hlt
      have hn3600 : ⌊q⌋₊ < 3600 := (Nat.floor_lt hq).mpr (by exact_mod_cast hlt)
      rw [Nat.div_eq_of_lt hn3600] at h
      simp at h
    · intro h
      have hge : (3600 : ℚ) ≤ q := not_lt.mp h
      have h36 : 3600 ≤ ⌊q⌋₊ := Nat.le_floor (by exact_mod_cast hge)
      exact_mod_cast Nat.div_pos h36 (by norm_num)
  have hbranch2 : 0 < ((⌊q⌋₊ / 3600 : ℕ) : ℤ) ↔ ¬(q < 3600) := by
    rw [← hours_eq]; exact hbranch
  simp only [format_timestamp, timestampSpec]
  rw [hours_eq, hmins, hsecs]
  by_cases hc : q < 3600
  · rw [if_neg (fun hp => (hbranch2.mp hp) hc), if_pos hc]
    have hn3600 : ⌊q⌋₊ < 3600 := (Nat.floor_lt hq).mpr (by exact_mod_cast hc)
    rw [Nat.mod_eq_of_lt hn3600]
  · rw [if_pos (hbranch2.mpr hc), if_neg hc]

/-! Helper lemmas about the state-mutation methods and the per-video
pipeline. -/

theorem add_processed_processed_videos (s : PlaylistState) (now : String)
    (v : ProcessedVideo) :
    (s.add_processed now v).processed_videos =
      dictInsert s.processed_videos v.video_id v := by
  simp only [PlaylistState.add_processed]
  split <;> rfl

theorem strOptTruthy_eq_true_iff (o : Option String) :
    strOptTruthy o = true ↔ ∃ e, o = some e ∧ e ≠ "" := by
  cases o with
  | none => simp [strOptTruthy]
  | some s =>
      have hdef : strOptTruthy (some s) = !s.isEmpty := rfl
      rw [hdef]
      constructor
      · intro h
        refine ⟨s, rfl, fun hsEmpty => ?_⟩
        rw [hsEmpty] at h
        exact absurd h (by decide)
      · rintro ⟨e, he, hne⟩
        injection he with he'
        subst he'
        cases hb : s.isEmpty with
        | true => exact absurd ((String.isEmpty_iff s).mp hb) hne
        | false => rfl

/-- The fetch-failure path of `_process_single_video`, taken whenever the
fetched transcript is falsy (`None` or the empty list). -/
theorem process_single_video_fetch_fail (video : VideoInfo) (s : PlaylistState)
    (col : StageResults) (now : String) (hfetch : listOptTruthy col.fetch = false) :
    process_single_video video s col now =
      ⟨false, "failed",
        s.add_failed now video.video_id "Failed to retrieve transcript",
        [s.add_failed now video.video_id "Failed to retrieve transcript"],
        false, false⟩ := by
  unfold process_single_video
  rw [hfetch]
  rfl

/-- Claim C1, counterexample: a `ProcessingRecord` whose `error` is the
non-null empty string does **not** remove the failure-ledger entry for its
video (Python truthiness: `if video.error` is false for `""`), refuting
"a record whose error is non-null removes any existing failure-ledger
entry". -/
theorem claim1_counterexample :
    recordEmptyError.error ≠ none ∧
      dictLookup ((stateWithLedger.add_processed "t1" recordEmptyError)).failed_videos
        "v1" = some "e1" := by
  exact ⟨by decide, by decide⟩

/-- Claim C1 (amended): adding a record whose error is non-null **and
non-empty** removes the failure-ledger entry for that video and stores the
record in the processed map; adding a record with a null error leaves the
failure ledger entirely unchanged (so a pre-existing entry persists) while
the record is stored in the processed map. -/
theorem claim1_ledger_asymmetry (s : PlaylistState) (now : String)
    (v : ProcessedVideo) (hnodup : (s.failed_videos.map Prod.fst).Nodup) :
    ((∃ e, v.error = some e ∧ e ≠ "") →
      dictLookup (s.add_processed now v).failed_videos v.video_id = none ∧
      dictLookup (s.add_processed now v).processed_videos v.video_id = some v) ∧
    (v.error = none →
      (s.add_processed now v).failed_videos = s.failed_videos ∧
      dictLookup (s.add_processed now v).processed_videos v.video_id = some v) := by
  have hproc : dictLookup (s.add_processed now v).processed_videos v.video_id
      = some v := by
    rw [add_processed_processed_videos]
    exact dictLookup_insert_self _ _ _
  constructor
  · intro he
    refine ⟨?_, hproc⟩
    have htruthy : strOptTruthy v.error = true := (strOptTruthy_eq_true_iff _).mpr he
    simp only [PlaylistState.add_processed, htruthy, Bool.true_and]
    by_cases hc : dictContains s.failed_videos v.video_id
    · rw [if_pos hc]
      exact dictLookup_erase_self _ _ hnodup
    · rw [if_neg hc]
      simp only [dictContains, Option.isSome] at hc
      cases hlook : dictLookup s.failed_videos v.video_id with
      | none => rfl
      | some w => rw [hlook] at hc; simp at hc
  · intro he
    refine ⟨?_, hproc⟩
    simp [PlaylistState.add_processed, he, strOptTruthy]

/-- Witness for claim C1's amended theorem: concrete instances of both
halves, at a state whose ledger holds an entry for `"v1"`. -/
theorem claim1_witness :
    (dictLookup ((stateWithLedger.add_processed "t1" recordRealError)).failed_videos
        "v1" = none ∧
      dictLookup ((stateWithLedger.add_processed "t1" recordRealError)).processed_videos
        "v1" = some recordRealError) ∧
    ((stateWithLedger.add_processed "t1" recordNoError).failed_videos =
        stateWithLedger.failed_videos ∧
      dictLookup ((stateWithLedger.add_processed "t1" recordNoError)).processed_videos
        "v1" = some recordNoError) := by
  have h1 := claim1_ledger_asymmetry stateWithLedger "t1" recordRealError (by decide)
  have h2 := claim1_ledger_asymmetry stateWithLedger "t1" recordNoError (by decide)
  exact ⟨h1.1 ⟨"boom", rfl, by decide⟩, h2.2 rfl⟩

/-- Claim C10: `add_failed` mutates only the failure ledger and the
last-updated timestamp: the processed map and every other field are
untouched, `is_processed` answers exactly as before, and a video that
satisfied `is_processed` beforehand is still skipped by a
skip-existing loop step run on the mutated state. -/
theorem claim10_add_failed_frame (s : PlaylistState) (now video_id error : String) :
    (s.add_failed now video_id error).processed_videos = s.processed_videos ∧
    (s.add_failed now video_id error).playlist_id = s.playlist_id ∧
    (s.add_failed now video_id error).file_search_store_name =
      s.file_search_store_name ∧
    (s.add_failed now video_id error).created_at = s.created_at ∧
    (∀ w, (s.add_failed now video_id error).is_processed w = s.is_processed w) ∧
    (∀ (c1 c2 c3 : ℕ) (v : VideoInfo) (col : StageResults) (now2 : String),
      s.is_processed v.video_id = true →
      (processStep true now2 ⟨c1, c2, c3, s.add_failed now video_id error⟩ v
        col).skipped_count = c2 + 1) := by
  refine ⟨rfl, rfl, rfl, rfl, fun w => rfl, ?_⟩
  intro c1 c2 c3 v col now2 hp
  have hp' : (s.add_failed now video_id error).is_processed v.video_id = true := hp
  simp [processStep, hp']

/-- Witness for claim C10: a concrete skip-existing loop step, run after
`add_failed`, still skips the successfully processed video `"v1"`. -/
theorem claim10_witness :
    (processStep true "t2" ⟨0, 0, 0, stateProcessedOk.add_failed "t1" "vX" "e"⟩
      videoV1 fetchNoneCol).skipped_count = 0 + 1 := by
  exact (claim10_add_failed_frame stateProcessedOk "t1" "vX" "e").2.2.2.2.2
    0 0 0 videoV1 fetchNoneCol "t2" (by decide)

/-- Claim C4: when the transcript fetch returns `None`, the pipeline
records exactly "Failed to retrieve transcript" in the failure ledger,
saves precisely that state, returns the failed outcome, never calls the
transform or upload collaborators, and leaves the processed map (hence
creates no `ProcessingRecord`) unchanged. -/
theorem claim4_fetch_failure (video : VideoInfo) (s : PlaylistState)
    (col : StageResults) (now : String) (hfetch : col.fetch = none) :
    (process_single_video video s col now).success = false ∧
    (process_single_video video s col now).status = "failed" ∧
    (process_single_video video s col now).state =
      s.add_failed now video.video_id "Failed to retrieve transcript" ∧
    (process_single_video video s col now).saves =
      [s.add_failed now video.video_id "Failed to retrieve transcript"] ∧
    (process_single_video video s col now).transform_called = false ∧
    (process_single_video video s col now).upload_called = false ∧
    dictLookup (process_single_video video s col now).state.failed_videos
      video.video_id = some "Failed to retrieve transcript" ∧
    (process_single_video video s col now).state.processed_videos =
      s.processed_videos := by
  rw [process_single_video_fetch_fail video s col now (by rw [hfetch]; rfl)]
  exact ⟨rfl, rfl, rfl, rfl, rfl, rfl, dictLookup_insert_self _ _ _, rfl⟩

/-- Witness for claim C4 at a concrete video, state and collaborator
response. -/
theorem claim4_witness :
    (process_single_video videoV1 freshState fetchNoneCol "t1").status = "failed" ∧
    dictLookup (process_single_video videoV1 freshState fetchNoneCol
      "t1").state.failed_videos "v1" = some "Failed to retrieve transcript" ∧
    (process_single_video videoV1 freshState fetchNoneCol
      "t1").state.processed_videos = freshState.processed_videos := by
  have h := claim4_fetch_failure videoV1 freshState fetchNoneCol "t1" rfl
  exact ⟨h.2.1, h.2.2.2.2.2.2.1, h.2.2.2.2.2.2.2⟩

/-- Claim C9 (implicit): a fetch that succeeds with an **empty** segment
list is treated exactly like an absent transcript (`if not transcript` is
true for `[]`): same ledger entry, same save, failed outcome, no later
stage, no record. -/
theorem claim9_empty_transcript (video : VideoInfo) (s : PlaylistState)
    (col : StageResults) (now : String) (hfetch : col.fetch = some []) :
    (process_single_video video s col now).success = false ∧
    (process_single_video video s col now).status = "failed" ∧
    (process_single_video video s col now).state =
      s.add_failed now video.video_id "Failed to retrieve transcript" ∧
    (process_single_video video s col now).saves =
      [s.add_failed now video.video_id "Failed to retrieve transcript"] ∧
    (process_single_video video s col now).transform_called = false ∧
    (process_single_video video s col now).upload_called = false ∧
    dictLookup (process_single_video video s col now).state.failed_videos
      video.video_id = some "Failed to retrieve transcript" ∧
    (process_single_video video s col now).state.processed_videos =
      s.processed_videos := by
  rw [process_single_video_fetch_fail video s col now (by rw [hfetch]; rfl)]
  exact ⟨rfl, rfl, rfl, rfl, rfl, rfl, dictLookup_insert_self _ _ _, rfl⟩

/-- Witness for claim C9 at a concrete empty-transcript response. -/
theorem claim9_witness :
    (process_single_video videoV1 freshState fetchEmptyCol "t1").status = "failed" ∧
    (process_single_video videoV1 freshState fetchEmptyCol
      "t1").transform_called = false ∧
    dictLookup (process_single_video videoV1 freshState fetchEmptyCol
      "t1").state.failed_videos "v1" = some "Failed to retrieve transcript" := by
  have h := claim9_empty_transcript videoV1 freshState fetchEmptyCol "t1" rfl
  exact ⟨h.2.1, h.2.2.2.2.1, h.2.2.2.2.2.2.1⟩

/-- Claim C2, counterexample: with skip-existing enabled, a video whose
processed record carries the **non-null** error `""` is nonetheless
skipped and the Video Processor is not invoked, refuting the "only null
error counts as processed" direction of the skip rule. -/
theorem claim2_counterexample :
    recordEmptyError.error ≠ none ∧
    (processStep true "t1" ⟨0, 0, 0, stateEmptyErrRecord⟩ videoV1
      fetchNoneCol).skipped_count = 1 ∧
    stepInvokesProcessor true ⟨0, 0, 0, stateEmptyErrRecord⟩ videoV1 = false := by
  exact ⟨by decide, by decide, by decide⟩

/-- Claim C2 (amended): with skip-existing enabled, a loop step skips the
video (skipped counter incremented, Video Processor not reached) if and
only if the processed map holds a record for it whose error is null **or
the empty string** (Python falsiness of the `error` field). -/
theorem processStep_skipped_of_not_processed (now : String) (rs : RunState)
    (video : VideoInfo) (col : StageResults)
    (hBf : rs.state.is_processed video.video_id = false) :
    (processStep true now rs video col).skipped_count = rs.skipped_count := by
  unfold processStep
  rw [hBf]
  rw [if_neg (by simp)]
  cases hs : (process_single_video video rs.state col now).success with
  | true => simp [hs]
  | false => simp [hs]

theorem claim2_skip_rule (now : String) (rs : RunState) (video : VideoInfo)
    (col : StageResults) :
    ((processStep true now rs video col).skipped_count = rs.skipped_count + 1 ∧
      stepInvokesProcessor true rs video = false) ↔
    (∃ r, dictLookup rs.state.processed_videos video.video_id = some r ∧
      (r.error = none ∨ r.error = some "")) := by
  constructor
  · rintro ⟨hskip, -⟩
    by_cases hB : rs.state.is_processed video.video_id = true
    · unfold PlaylistState.is_processed at hB
      cases hlook : dictLookup rs.state.processed_videos video.video_id with
      | none => rw [hlook] at hB; simp at hB
      | some r =>
          rw [hlook] at hB
          have hB2 : (!strOptTruthy r.error) = true := hB
          refine ⟨r, rfl, ?_⟩
          cases herr : r.error with
          | none => exact Or.inl rfl
          | some e =>
              rw [herr] at hB2
              have he : e.isEmpty = true := by
                cases hb : e.isEmpty with
                | true => rfl
                | false => rw [show strOptTruthy (some e) = !e.isEmpty from rfl,
                    hb] at hB2; simp at hB2
              exact Or.inr (by rw [(String.isEmpty_iff e).mp he])
    · exfalso
      have hBf : rs.state.is_processed video.video_id = false := by
        cases hb : rs.state.is_processed video.video_id with
        | true => exact absurd hb hB
        | false => rfl
      rw [processStep_skipped_of_not_processed now rs video col hBf] at hskip
      omega
  · rintro ⟨r, hlook, herr⟩
    have hB : rs.state.is_processed video.video_id = true := by
      unfold PlaylistState.is_processed
      rw [hlook]
      show (!strOptTruthy r.error) = true
      rcases herr with h | h <;> rw [h] <;> rfl
    constructor
    · simp [processStep, hB]
    · simp [stepInvokesProcessor, hB]

/-- Claim C5, counterexample: an unhandled exception while processing the
first video aborts the whole run — the second video is never attempted —
although processing the second video's list alone would complete.  This
refutes "the orchestrator still attempts every subsequent video". -/
theorem claim5_counterexample :
    runLoop true "t1"
      [(videoV1, StepBehavior.raises), (videoV2, StepBehavior.returns fetchNoneCol)]
      ⟨0, 0, 0, freshState⟩ = Except.error () ∧
    runLoop true "t1" [(videoV2, StepBehavior.returns fetchNoneCol)]
      ⟨0, 0, 0, freshState⟩ =
      Except.ok ⟨0, 0, 1,
        ⟨"p1", "store", "t0", "t1", [],
          [("v2", "Failed to retrieve transcript")]⟩⟩ := by
  exact ⟨rfl, rfl⟩

/-- Claim C5 (amended): per-video collaborator failures never abort the
loop — when no iteration raises, the loop attempts every video and
returns the fold of the step function — but an iteration that raises an
unhandled exception aborts the run (the remaining videos are not
attempted and the accumulated counters are discarded by the top-level
handler). -/
theorem claim5_exception_behavior :
    (∀ (skip_existing : Bool) (now : String)
      (vids : List (VideoInfo × StageResults)) (rs : RunState),
      runLoop skip_existing now
        (vids.map fun p => (p.1, StepBehavior.returns p.2)) rs =
        Except.ok (vids.foldl
          (fun r p => processStep skip_existing now r p.1 p.2) rs)) ∧
    (∀ (skip_existing : Bool) (now : String)
      (l : List (VideoInfo × StepBehavior)) (rs : RunState),
      (∃ p ∈ l, p.2 = StepBehavior.raises) →
      runLoop skip_existing now l rs = Except.error ()) := by
  constructor
  · intro skip_existing now vids
    induction vids with
    | nil => intro rs; rfl
    | cons hd tl ih =>
        intro rs
        obtain ⟨v, c⟩ := hd
        simp only [List.map_cons, List.foldl_cons, runLoop]
        exact ih _
  · intro skip_existing now l
    induction l with
    | nil =>
        intro rs h
        obtain ⟨p, hp, -⟩ := h
        exact absurd hp (List.not_mem_nil p)
    | cons hd tl ih =>
        intro rs h
        obtain ⟨v, b⟩ := hd
        cases b with
        | raises => rfl
        | returns c =>
            obtain ⟨p, hp, hpr⟩ := h
            rcases List.mem_cons.mp hp with rfl | hmem
            · exact absurd hpr (by simp)
            · exact ih _ ⟨p, hmem, hpr⟩

/-- Witness for claim C5's amended theorem: the exception-free conjunct
at a concrete two-video list, and the aborting conjunct at a list whose
second iteration raises. -/
theorem claim5_witness :
    runLoop true "t1"
      [(videoV1, StepBehavior.returns fetchNoneCol),
       (videoV2, StepBehavior.returns fetchNoneCol)] ⟨0, 0, 0, freshState⟩ =
      Except.ok ([(videoV1, fetchNoneCol), (videoV2, fetchNoneCol)].foldl
        (fun r p => processStep true "t1" r p.1 p.2) ⟨0, 0, 0, freshState⟩) ∧
    runLoop true "t1"
      [(videoV1, StepBehavior.returns fetchNoneCol), (videoV2, StepBehavior.raises)]
      ⟨0, 0, 0, freshState⟩ = Except.error () := by
  constructor
  · exact claim5_exception_behavior.1 true "t1" [(videoV1, fetchNoneCol),
      (videoV2, fetchNoneCol)] ⟨0, 0, 0, freshState⟩
  · exact claim5_exception_behavior.2 true "t1" _ _
      ⟨(videoV2, StepBehavior.raises), by simp, rfl⟩

/-- Claim C6, counterexample: a parsed state document whose single
processed-video entry is missing its required `title` field makes
`StateManager.load` raise (`ProcessedVideo(**video_data)` raises
`TypeError`, which the `except (json.JSONDecodeError, KeyError)` handler
does not catch), refuting "returns absent ... and never raises". -/
theorem claim6_counterexample :
    loadState (LoadInput.parsed rawStateBadVideo) = Except.error "TypeError" := by
  rfl

/-- Claim C6 (amended): a missing state file, a JSON parse failure and a
missing required **top-level** field are all treated as absent (the two
fault cases after surfacing a warning) and the call returns; but a
missing required field **inside a processed-video entry** raises out of
`load` instead of being treated as absent. -/
theorem claim6_load_resilience :
    loadState LoadInput.missing = Except.ok (none, false) ∧
    loadState LoadInput.invalidJson = Except.ok (none, true) ∧
    (∀ data : RawState,
      (∃ pv, buildProcessedVideos (data.processed_videos.getD []) = Except.ok pv) →
      ∃ r, loadState (LoadInput.parsed data) = Except.ok r) ∧
    (∀ data : RawState,
      (data.playlist_id = none ∨ data.file_search_store_name = none ∨
        data.created_at = none ∨ data.last_updated = none) →
      (∃ pv, buildProcessedVideos (data.processed_videos.getD []) = Except.ok pv) →
      loadState (LoadInput.parsed data) = Except.ok (none, true)) ∧
    (∀ (data : RawState) (e : String),
      buildProcessedVideos (data.processed_videos.getD []) = Except.error e →
      loadState (LoadInput.parsed data) = Except.error e) := by
  refine ⟨rfl, rfl, ?_, ?_, ?_⟩
  · rintro data ⟨pv, hpv⟩
    simp only [loadState]
    rw [hpv]
    cases hp : data.playlist_id with
    | none => exact ⟨(none, true), rfl⟩
    | some a =>
        cases hf : data.file_search_store_name with
        | none => exact ⟨(none, true), rfl⟩
        | some b =>
            cases hc : data.created_at with
            | none => exact ⟨(none, true), rfl⟩
            | some c =>
                cases hl : data.last_updated with
                | none => exact ⟨(none, true), rfl⟩
                | some d => exact ⟨_, rfl⟩
  · rintro data hmiss ⟨pv, hpv⟩
    simp only [loadState]
    rw [hpv]
    rcases hmiss with h | h | h | h
    · rw [h]
    · rw [h]
      cases data.playlist_id <;> rfl
    · rw [h]
      cases data.playlist_id <;> cases data.file_search_store_name <;> rfl
    · rw [h]
      cases data.playlist_id <;> cases data.file_search_store_name <;>
        cases data.created_at <;> rfl
  · intro data e he
    simp only [loadState]
    rw [he]

/-- Witness for claim C6's amended theorem: the absent-field case at a
concrete document missing its top-level playlist id, and the raising case
at a concrete document with a malformed video entry. -/
theorem claim6_witness :
    loadState (LoadInput.parsed rawStateMissingTop) = Except.ok (none, true) ∧
    loadState (LoadInput.parsed rawStateBadVideo) = Except.error "TypeError" := by
  constructor
  · exact claim6_load_resilience.2.2.2.1 rawStateMissingTop (Or.inl rfl)
      ⟨[("v1", ⟨"v1", "Video One", "t1", "youtube-v1", 10, 20, none⟩)], rfl⟩
  · exact claim6_load_resilience.2.2.2.2 rawStateBadVideo "TypeError" rfl

/-! Helper lemmas for the success path of the per-video pipeline. -/

theorem process_single_video_transform_fail (video : VideoInfo) (s : PlaylistState)
    (col : StageResults) (now : String) (h1 : listOptTruthy col.fetch = true)
    (h2 : strOptTruthy col.transform = false) :
    process_single_video video s col now =
      ⟨false, "failed",
        s.add_failed now video.video_id "Failed to transform transcript",
        [s.add_failed now video.video_id "Failed to transform transcript"],
        true, false⟩ := by
  unfold process_single_video
  rw [h1, h2]
  rfl

theorem process_single_video_upload_fail (video : VideoInfo) (s : PlaylistState)
    (col : StageResults) (now : String) (h1 : listOptTruthy col.fetch = true)
    (h2 : strOptTruthy col.transform = true) (h3 : strOptTruthy col.upload = false) :
    process_single_video video s col now =
      ⟨false, "failed",
        s.add_failed now video.video_id "Failed to upload to Gemini",
        [s.add_failed now video.video_id "Failed to upload to Gemini"],
        true, true⟩ := by
  unfold process_single_video
  rw [h1, h2, h3]
  rfl

theorem process_single_video_success (video : VideoInfo) (s : PlaylistState)
    (col : StageResults) (now : String) (h1 : listOptTruthy col.fetch = true)
    (h2 : strOptTruthy col.transform = true) (h3 : strOptTruthy col.upload = true) :
    process_single_video video s col now =
      ⟨true, "processed", s.add_processed now (successRecord video col now),
        [s.add_processed now (successRecord video col now)], true, true⟩ := by
  unfold process_single_video successRecord
  rw [h1, h2, h3]
  rfl

theorem process_single_video_success_iff (video : VideoInfo) (s : PlaylistState)
    (col : StageResults) (now : String) :
    (process_single_video video s col now).success = true ↔
      (listOptTruthy col.fetch = true ∧ strOptTruthy col.transform = true ∧
        strOptTruthy col.upload = true) := by
  cases h1 : listOptTruthy col.fetch with
  | false => rw [process_single_video_fetch_fail video s col now h1]; simp
  | true =>
      cases h2 : strOptTruthy col.transform with
      | false => rw [process_single_video_transform_fail video s col now h1 h2]; simp
      | true =>
          cases h3 : strOptTruthy col.upload with
          | false => rw [process_single_video_upload_fail video s col now h1 h2 h3]; simp
          | true => rw [process_single_video_success video s col now h1 h2 h3]; simp

theorem process_single_video_processed_of_failure (video : VideoInfo)
    (s : PlaylistState) (col : StageResults) (now : String)
    (h : (process_single_video video s col now).success = false) :
    (process_single_video video s col now).state.processed_videos =
      s.processed_videos := by
  cases h1 : listOptTruthy col.fetch with
  | false => rw [process_single_video_fetch_fail video s col now h1]; rfl
  | true =>
      cases h2 : strOptTruthy col.transform with
      | false => rw [process_single_video_transform_fail video s col now h1 h2]; rfl
      | true =>
          cases h3 : strOptTruthy col.upload with
          | false =>
              rw [process_single_video_upload_fail video s col now h1 h2 h3]; rfl
          | true =>
              rw [process_single_video_success video s col now h1 h2 h3] at h
              simp at h

theorem process_single_video_keys_nodup (video : VideoInfo) (s : PlaylistState)
    (col : StageResults) (now : String)
    (h : (s.processed_videos.map Prod.fst).Nodup) :
    ((process_single_video video s col now).state.processed_videos.map
      Prod.fst).Nodup := by
  cases hs : (process_single_video video s col now).success with
  | false => rw [process_single_video_processed_of_failure video s col now hs]; exact h
  | true =>
      obtain ⟨h1, h2, h3⟩ := (process_single_video_success_iff video s col now).mp hs
      rw [process_single_video_success video s col now h1 h2 h3]
      show (((s.add_processed now (successRecord video col now)).processed_videos).map
        Prod.fst).Nodup
      rw [add_processed_processed_videos]
      exact dictInsert_keys_nodup _ _ _ h

/-- Claim C7, counterexample: process `"v1"` successfully at `"t1"`, then
process it again at `"t2"` with a failing transcript fetch.  The second
outcome is `failed`, yet the single stored record is still the one the
**first** attempt created (`processed_at = "t1"`, error null), so the
record does not reflect the second attempt's outcome. -/
theorem claim7_counterexample :
    (process_single_video videoV1 freshState happyCol "t1").status = "processed" ∧
    (process_single_video videoV1
      (process_single_video videoV1 freshState happyCol "t1").state
      fetchNoneCol "t2").status = "failed" ∧
    ((dictLookup (process_single_video videoV1
        (process_single_video videoV1 freshState happyCol "t1").state
        fetchNoneCol "t2").state.processed_videos "v1").map
      (fun r => (r.processed_at, r.error))) = some ("t1", none) := by
  exact ⟨rfl, rfl, rfl⟩

/-- Claim C7 (amended): the processed map never holds more than one
record per identifier, and when the **second** attempt succeeds the
stored record is exactly the one created by the second attempt
(last-write-wins).  A failed second attempt leaves the prior record in
place (see the counterexample) since failed attempts write only to the
failure ledger. -/
theorem claim7_last_write_wins (video : VideoInfo) (s : PlaylistState)
    (c1 c2 : StageResults) (now1 now2 : String)
    (hnodup : (s.processed_videos.map Prod.fst).Nodup) :
    (((process_single_video video
        (process_single_video video s c1 now1).state c2 now2).state.processed_videos.map
      Prod.fst).count video.video_id ≤ 1) ∧
    ((process_single_video video
        (process_single_video video s c1 now1).state c2 now2).success = true →
      dictLookup (process_single_video video
        (process_single_video video s c1 now1).state c2 now2).state.processed_videos
        video.video_id = some (successRecord video c2 now2)) := by
  have hn1 := process_single_video_keys_nodup video s c1 now1 hnodup
  have hn2 := process_single_video_keys_nodup video
    (process_single_video video s c1 now1).state c2 now2 hn1
  constructor
  · exact List.nodup_iff_count_le_one.mp hn2 video.video_id
  · intro hs
    obtain ⟨h1, h2, h3⟩ := (process_single_video_success_iff video _ c2 now2).mp hs
    rw [process_single_video_success video _ c2 now2 h1 h2 h3]
    show dictLookup ((process_single_video video s c1
      now1).state.add_processed now2 (successRecord video c2 now2)).processed_videos
      video.video_id = some (successRecord video c2 now2)
    rw [add_processed_processed_videos]
    exact dictLookup_insert_self _ _ _

/-- Witness for claim C7's amended theorem: a failed first attempt
followed by a successful second attempt stores exactly the second
attempt's record. -/
theorem claim7_witness :
    dictLookup (process_single_video videoV1
      (process_single_video videoV1 freshState fetchNoneCol "t1").state
      happyCol "t2").state.processed_videos "v1" =
      some (successRecord videoV1 happyCol "t2") := by
  exact (claim7_last_write_wins videoV1 freshState fetchNoneCol happyCol "t1" "t2"
    (by decide)).2 (by rfl)

/-! Helper lemmas for the orchestrator loop counters. -/

theorem is_processed_of_lookup_none (s : PlaylistState) (w : String)
    (h : dictLookup s.processed_videos w = none) : s.is_processed w = false := by
  unfold PlaylistState.is_processed
  rw [h]

theorem processStep_count_sum (skip_existing : Bool) (now : String) (rs : RunState)
    (v : VideoInfo) (col : StageResults) :
    (processStep skip_existing now rs v col).processed_count +
      (processStep skip_existing now rs v col).skipped_count +
      (processStep skip_existing now rs v col).failed_count =
    rs.processed_count + rs.skipped_count + rs.failed_count + 1 := by
  unfold processStep
  by_cases hb : (skip_existing && rs.state.is_processed v.video_id) = true
  · rw [if_pos hb]
    simp
    omega
  · rw [if_neg hb]
    cases hs : (process_single_video v rs.state col now).success with
    | true => simp [hs]; omega
    | false => simp [hs]; omega

theorem runFold_count_sum (skip_existing : Bool) (now : String) :
    ∀ (vids : List (VideoInfo × StageResults)) (rs : RunState),
      (vids.foldl (fun r p => processStep skip_existing now r p.1 p.2)
          rs).processed_count +
        (vids.foldl (fun r p => processStep skip_existing now r p.1 p.2)
          rs).skipped_count +
        (vids.foldl (fun r p => processStep skip_existing now r p.1 p.2)
          rs).failed_count =
      rs.processed_count + rs.skipped_count + rs.failed_count + vids.length := by
  intro vids
  induction vids with
  | nil => intro rs; simp
  | cons hd tl ih =>
      intro rs
      rw [List.foldl_cons]
      have h1 := processStep_count_sum skip_existing now rs hd.1 hd.2
      have h2 := ih (processStep skip_existing now rs hd.1 hd.2)
      simp only [List.length_cons]
      omega

theorem processStep_not_processed_success (now : String) (rs : RunState)
    (v : VideoInfo) (col : StageResults)
    (hB : rs.state.is_processed v.video_id = false)
    (hs : (process_single_video v rs.state col now).success = true) :
    processStep true now rs v col =
      { rs with
        processed_count := rs.processed_count + 1
        state := (process_single_video v rs.state col now).state } := by
  unfold processStep
  rw [hB]
  rw [if_neg (by simp)]
  simp [hs]

/-- The happy-path invariant for the skip-existing loop: fresh, pairwise
distinct videos whose collaborators all succeed are each processed, and
their success records are appended in order. -/
theorem happy_run (now : String) :
    ∀ (vids : List (VideoInfo × StageResults)) (rs : RunState),
      ((vids.map fun p => p.1.video_id).Nodup) →
      (∀ p ∈ vids, dictLookup rs.state.processed_videos p.1.video_id = none) →
      (∀ p ∈ vids, listOptTruthy p.2.fetch = true ∧
        strOptTruthy p.2.transform = true ∧ strOptTruthy p.2.upload = true) →
      (vids.foldl (fun r p => processStep true now r p.1 p.2)
          rs).processed_count = rs.processed_count + vids.length ∧
      (vids.foldl (fun r p => processStep true now r p.1 p.2)
          rs).skipped_count = rs.skipped_count ∧
      (vids.foldl (fun r p => processStep true now r p.1 p.2)
          rs).failed_count = rs.failed_count ∧
      (vids.foldl (fun r p => processStep true now r p.1 p.2)
          rs).state.processed_videos = rs.state.processed_videos ++
        vids.map (fun p => (p.1.video_id, successRecord p.1 p.2 now)) := by
  intro vids
  induction vids with
  | nil => intro rs _ _ _; simp
  | cons hd tl ih =>
      intro rs hnodup hfresh hsucc
      obtain ⟨v, c⟩ := hd
      obtain ⟨hs1, hs2, hs3⟩ := hsucc (v, c) (List.mem_cons_self _ _)
      have hlook : dictLookup rs.state.processed_videos v.video_id = none :=
        hfresh (v, c) (List.mem_cons_self _ _)
      have hB : rs.state.is_processed v.video_id = false :=
        is_processed_of_lookup_none rs.state v.video_id hlook
      have hpsv := process_single_video_success v rs.state c now hs1 hs2 hs3
      have hsucc1 : (process_single_video v rs.state c now).success = true := by
        rw [hpsv]
      have hstep := processStep_not_processed_success now rs v c hB hsucc1
      have hstate : (process_single_video v rs.state c now).state.processed_videos =
          rs.state.processed_videos ++ [(v.video_id, successRecord v c now)] := by
        rw [hpsv]
        show (rs.state.add_processed now (successRecord v c now)).processed_videos =
          rs.state.processed_videos ++ [(v.video_id, successRecord v c now)]
        rw [add_processed_processed_videos]
        exact dictInsert_of_lookup_none _ _ _ hlook
      simp only [List.map_cons, List.nodup_cons] at hnodup
      have ihh := ih { rs with
          processed_count := rs.processed_count + 1
          state := (process_single_video v rs.state c now).state }
        hnodup.2
        (by
          intro p hp
          show dictLookup (process_single_video v rs.state c
            now).state.processed_videos p.1.video_id = none
          rw [hstate]
          have hpn : dictLookup rs.state.processed_videos p.1.video_id = none :=
            hfresh p (List.mem_cons_of_mem _ hp)
          rw [dictLookup_append_right _ _ _ hpn]
          have hne : v.video_id ≠ p.1.video_id := by
            intro hEq
            exact hnodup.1 (by rw [hEq]; exact List.mem_map_of_mem _ hp)
          simp [dictLookup, hne]
        )
        (fun p hp => hsucc p (List.mem_cons_of_mem _ hp))
      rw [List.foldl_cons, hstep]
      refine ⟨?_, ?_, ?_, ?_⟩
      · rw [ihh.1]; simp; omega
      · rw [ihh.2.1]
      · rw [ihh.2.2.1]
      · rw [ihh.2.2.2]
        simp [hstate]

/-- Claim C8: each loop iteration bumps exactly one of the three counters
(so the final counts sum to the number of videos), and in the happy path
— distinct videos, no prior state, every collaborator succeeds — the run
reports `{processed: n, skipped: 0, failed: 0}` and the state holds `n`
records with null error. -/
theorem claim8_summary_partition :
    (∀ (skip_existing : Bool) (now : String)
      (vids : List (VideoInfo × StageResults)) (rs : RunState),
      (vids.foldl (fun r p => processStep skip_existing now r p.1 p.2)
          rs).processed_count +
        (vids.foldl (fun r p => processStep skip_existing now r p.1 p.2)
          rs).skipped_count +
        (vids.foldl (fun r p => processStep skip_existing now r p.1 p.2)
          rs).failed_count =
      rs.processed_count + rs.skipped_count + rs.failed_count + vids.length) ∧
    (∀ (now now0 pid store : String) (vids : List (VideoInfo × StageResults)),
      ((vids.map fun p => p.1.video_id).Nodup) →
      (∀ p ∈ vids, listOptTruthy p.2.fetch = true ∧
        strOptTruthy p.2.transform = true ∧ strOptTruthy p.2.upload = true) →
      (vids.foldl (fun r p => processStep true now r p.1 p.2)
          ⟨0, 0, 0, PlaylistState.create now0 pid store⟩).processed_count =
        vids.length ∧
      (vids.foldl (fun r p => processStep true now r p.1 p.2)
          ⟨0, 0, 0, PlaylistState.create now0 pid store⟩).skipped_count = 0 ∧
      (vids.foldl (fun r p => processStep true now r p.1 p.2)
          ⟨0, 0, 0, PlaylistState.create now0 pid store⟩).failed_count = 0 ∧
      (vids.foldl (fun r p => processStep true now r p.1 p.2)
          ⟨0, 0, 0, PlaylistState.create now0 pid
            store⟩).state.processed_videos.length = vids.length ∧
      (∀ q ∈ (vids.foldl (fun r p => processStep true now r p.1 p.2)
          ⟨0, 0, 0, PlaylistState.create now0 pid store⟩).state.processed_videos,
        q.2.error = none)) := by
  refine ⟨runFold_count_sum, ?_⟩
  intro now now0 pid store vids hnodup hsucc
  have h := happy_run now vids ⟨0, 0, 0, PlaylistState.create now0 pid store⟩
    hnodup (fun p _ => rfl) hsucc
  refine ⟨by rw [h.1]; simp, h.2.1, h.2.2.1, ?_, ?_⟩
  · rw [h.2.2.2]
    simp [PlaylistState.create]
  · intro q hq
    rw [h.2.2.2] at hq
    simp only [PlaylistState.create, List.nil_append] at hq
    obtain ⟨p, -, rfl⟩ := List.mem_map.mp hq
    rfl

/-- Witness for claim C8: a three-video happy-path run reports
`{processed: 3, skipped: 0, failed: 0}` and stores three null-error
records. -/
theorem claim8_witness :
    ([(videoV1, happyCol), (videoV2, happyCol), (videoV3, happyCol)].foldl
        (fun r p => processStep true "t1" r p.1 p.2)
        ⟨0, 0, 0, PlaylistState.create "t0" "p1" "store"⟩).processed_count = 3 ∧
    ([(videoV1, happyCol), (videoV2, happyCol), (videoV3, happyCol)].foldl
        (fun r p => processStep true "t1" r p.1 p.2)
        ⟨0, 0, 0, PlaylistState.create "t0" "p1" "store"⟩).skipped_count = 0 ∧
    ([(videoV1, happyCol), (videoV2, happyCol), (videoV3, happyCol)].foldl
        (fun r p => processStep true "t1" r p.1 p.2)
        ⟨0, 0, 0, PlaylistState.create "t0" "p1"
          "store"⟩).state.processed_videos.length = 3 := by
  have h := claim8_summary_partition.2 "t1" "t0" "p1" "store"
    [(videoV1, happyCol), (videoV2, happyCol), (videoV3, happyCol)]
    (by decide) (by decide)
  exact ⟨h.1, h.2.1, h.2.2.2.1⟩

/-- Claim C3: for non-negative start-offsets the formatted transcript is
the newline-join of one `[<timestamp>] <text>` line per segment in input
order, with the timestamp computed by integer division on the truncated
start-offset (`MM:SS` under one hour, else `HH:MM:SS`, two-digit
zero-padded fields); and the six example offsets render as specified. -/
theorem claim3_transcript_formatting :
    (∀ transcript : List TranscriptEntry, (∀ e ∈ transcript, 0 ≤ e.start) →
      format_transcript transcript = formatTranscriptSpec transcript) ∧
    format_timestamp 0 = "00:00" ∧ format_timestamp 59 = "00:59" ∧
    format_timestamp 60 = "01:00" ∧ format_timestamp 3599 = "59:59" ∧
    format_timestamp 3600 = "01:00:00" ∧ format_timestamp 7384 = "02:03:04" := by
  have hgen : ∀ transcript : List TranscriptEntry,
      (∀ e ∈ transcript, 0 ≤ e.start) →
      format_transcript transcript = formatTranscriptSpec transcript := by
    intro l hl
    unfold format_transcript formatTranscriptSpec
    congr 1
    apply List.map_congr_left
    intro e he
    rw [format_timestamp_eq_spec e.start (hl e he)]
  refine ⟨hgen, ?_, ?_, ?_, ?_, ?_, ?_⟩
  · rw [format_timestamp_eq_spec 0 (by decide)]
    unfold timestampSpec
    rw [Nat.floor_zero, if_pos (by decide)]
    rfl
  · rw [format_timestamp_eq_spec 59 (by decide)]
    unfold timestampSpec
    rw [Nat.floor_ofNat, if_pos (by decide)]
    rfl
  · rw [format_timestamp_eq_spec 60 (by decide)]
    unfold timestampSpec
    rw [Nat.floor_ofNat, if_pos (by decide)]
    rfl
  · rw [format_timestamp_eq_spec 3599 (by decide)]
    unfold timestampSpec
    rw [Nat.floor_ofNat, if_pos (by decide)]
    rfl
  · rw [format_timestamp_eq_spec 3600 (by decide)]
    unfold timestampSpec
    rw [Nat.floor_ofNat, if_neg (by decide)]
    rfl
  · rw [format_timestamp_eq_spec 7384 (by decide)]
    unfold timestampSpec
    rw [Nat.floor_ofNat, if_neg (by decide)]
    rfl

/-- Witness for claim C3's general clause at a concrete two-segment
transcript with non-negative start-offsets. -/
theorem claim3_witness :
    format_transcript transcriptSample = formatTranscriptSpec transcriptSample := by
  refine claim3_transcript_formatting.1 transcriptSample ?_
  intro e he
  rcases List.mem_cons.mp he with rfl | he2
  · decide
  rcases List.mem_cons.mp he2 with rfl | he3
  · decide
  · exact absurd he3 (List.not_mem_nil e)

end YTK
